import Mathlib

/-!
Shallow embedding of the two source files of wdwvt1/american-gut-web:

* `amgut/lib/mail.py` — `send_email`, a linear SMTP sending procedure.
  It is modelled as a trace semantics: a call returns the list of SMTP
  client operations it issued, in order, together with the Python
  exception (if any) that escaped the call.  The Python local variable
  `s` is modelled as an `Option SmtpClient`: in the `smtp_ssl` branch the
  object returned by `smtplib.SMTP_SSL()` is discarded and `s` is never
  assigned, so the later attribute access `s.connect` raises
  `UnboundLocalError` (CPython treats `s` as a local because the `else`
  branch assigns it).

* `amgut/handlers/results_portal.py` — `ResultsPortalHandler.get`,
  modelled as a pure function from its collaborators (the data-access
  lookup and the current user) to the list of render calls it issues.
-/

/-- The fields of the process-wide `AMGUT_CONFIG` read by `send_email`. -/
structure AMGUT_Config where
  smtp_ssl : Bool
  smtp_host : String
  smtp_port : Nat
  smtp_user : String
  smtp_password : String
  deriving Repr, DecidableEq

/-- Outcome of the relay's response to the STARTTLS command: success,
a protocol-level `smtplib.SMTPException`, or an exception of any other
type (e.g. a socket-level error). -/
inductive StarttlsOutcome
  | ok
  | smtpExc
  | otherExc
  deriving Repr, DecidableEq

/-- Behaviour of the SMTP relay (and network) during one call: whether the
connection attempt succeeds, how the relay answers STARTTLS, and whether
the login and sendmail commands succeed. -/
structure Relay where
  connect_ok : Bool
  starttls_outcome : StarttlsOutcome
  login_ok : Bool
  sendmail_ok : Bool
  deriving Repr, DecidableEq

/-- The kind of SMTP client object constructed (`smtplib.SMTP()` or
`smtplib.SMTP_SSL()`). -/
inductive SmtpClient
  | plain
  | ssl
  deriving Repr, DecidableEq

/-- One observable operation issued by `send_email`. -/
inductive Event
  | construct_SMTP_SSL
  | construct_SMTP
  | connect (host : String) (port : Nat)
  | starttls
  | ehlo_or_helo_if_needed
  | login (user password : String)
  | sendmail (from_addr : String) (to_addrs : List String) (payload : String)
  | quit
  deriving Repr, DecidableEq

/-- A Python exception escaping `send_email`. -/
inductive PyError
  | unboundLocal (name : String)
  | connectError
  | smtpException
  | otherException
  | loginError
  | sendmailError
  deriving Repr, DecidableEq

/-- `email.mime.text.MIMEText`: a plaintext message body with an ordered
list of headers. -/
structure MIMEText where
  body : String
  headers : List (String × String)
  deriving Repr, DecidableEq

/-- `MIMEText(message)`: a fresh plaintext message with no headers set. -/
def MIMEText.mk0 (body : String) : MIMEText := ⟨body, []⟩

/-- `msg[k] = v`: append a header. -/
def MIMEText.setHeader (m : MIMEText) (k v : String) : MIMEText :=
  { m with headers := m.headers ++ [(k, v)] }

/-- `msg[k]`: look up the first header named `k`. -/
def MIMEText.getHeader (m : MIMEText) (k : String) : Option String :=
  (m.headers.find? (fun p => p.1 == k)).map Prod.snd

/-- `msg.as_string()`: headers, blank line, body. -/
def MIMEText.as_string (m : MIMEText) : String :=
  String.join (m.headers.map (fun p => p.1 ++ ": " ++ p.2 ++ "\x0a")) ++ "\x0a" ++ m.body

/-- Lines 16–22 of `mail.py`:
`msg = MIMEText(message); msg['Subject'] = subject; msg['From'] = sender;
msg['To'] = recipient`. -/
def build_msg (message subject sender recipient : String) : MIMEText :=
  (((MIMEText.mk0 message).setHeader "Subject" subject).setHeader
    "From" sender).setHeader "To" recipient

/-- Final steps of `send_email`:
`s.sendmail(sender, [recipient], msg.as_string()); s.quit()`. -/
def sendmail_and_quit (relay : Relay) (sender recipient : String) (msg : MIMEText)
    (tr : List Event) : List Event × Option PyError :=
  let tr := tr ++ [Event.sendmail sender [recipient] msg.as_string]
  if relay.sendmail_ok = false then (tr, some PyError.sendmailError)
  else (tr ++ [Event.quit], none)

/-- `send_email(message, subject, recipient='americangut@gmail.com',
sender=media_locale['HELP_EMAIL'])` from `amgut/lib/mail.py`.

`help_email` stands for `media_locale['HELP_EMAIL']` (the process-wide
configured help address, defined outside these two files); its value is
opaque here.  `recipient_arg`/`sender_arg` are `none` when the caller
omits the corresponding argument, modelling the Python default values.

The local variable `s` starts unbound (`none`).  In the `smtp_ssl`
branch `smtplib.SMTP_SSL()` is constructed but its result is discarded,
so `s` stays unbound and `s.connect` raises `UnboundLocalError`.  The
`try: s.starttls() except smtplib.SMTPException: pass` swallows exactly
the protocol-level exception; any other exception propagates. -/
def send_email (cfg : AMGUT_Config) (relay : Relay) (help_email : String)
    (message subject : String)
    (recipient_arg sender_arg : Option String) :
    List Event × Option PyError :=
  let recipient := recipient_arg.getD "americangut@gmail.com"
  let sender := sender_arg.getD help_email
  let msg := build_msg message subject sender recipient
  let s : Option SmtpClient :=
    if cfg.smtp_ssl then none else some SmtpClient.plain
  let tr : List Event :=
    if cfg.smtp_ssl then [Event.construct_SMTP_SSL] else [Event.construct_SMTP]
  match s with
  | none => (tr, some (PyError.unboundLocal "s"))
  | some _ =>
    let tr := tr ++ [Event.connect cfg.smtp_host cfg.smtp_port]
    if relay.connect_ok = false then (tr, some PyError.connectError)
    else
      let tr := tr ++ [Event.starttls]
      if relay.starttls_outcome = StarttlsOutcome.otherExc then
        (tr, some PyError.otherException)
      else
        let tr := tr ++ [Event.ehlo_or_helo_if_needed]
        if cfg.smtp_user ≠ "" then
          let tr := tr ++ [Event.login cfg.smtp_user cfg.smtp_password]
          if relay.login_ok = false then (tr, some PyError.loginError)
          else sendmail_and_quit relay sender recipient msg tr
        else sendmail_and_quit relay sender recipient msg tr

/-- Number of `login` events in a trace. -/
def loginCount (tr : List Event) : Nat :=
  (tr.filter (fun e => match e with | Event.login _ _ => true | _ => false)).length

/-- `true` iff no `sendmail` event occurs before the first `login` event. -/
def sendmailOnlyAfterLogin (tr : List Event) : Bool :=
  (tr.takeWhile (fun e => match e with | Event.login _ _ => false | _ => true)).all
    (fun e => match e with | Event.sendmail _ _ _ => false | _ => true)

/-- A call `self.render(template, skid=..., results=...)` issued by the
results-portal handler. -/
structure RenderCall (Identity ResultSet : Type) where
  template : String
  skid : Identity
  results : ResultSet
  deriving Repr, DecidableEq

/-- `ResultsPortalHandler.get` from `amgut/handlers/results_portal.py`:
`results = AG_DATA_ACCESS.get_barcode_results(self.current_user);
self.render('results_portal.html', skid=self.current_user, results=results)`.
The handler body is modelled as the list of render calls it issues, given
the data-access collaborator `get_barcode_results` and the authenticated
`current_user`. -/
def ResultsPortalHandler_get {Identity ResultSet : Type}
    (get_barcode_results : Identity → ResultSet) (current_user : Identity) :
    List (RenderCall Identity ResultSet) :=
  [{ template := "results_portal.html", skid := current_user,
     results := get_barcode_results current_user }]

/-- A configuration with `smtp_ssl` false and no user (anonymous relay). -/
def cfgAnon : AMGUT_Config := ⟨false, "smtp.example.org", 25, "", "pw"⟩

/-- A configuration with `smtp_ssl` false and the user "bot". -/
def cfgBot : AMGUT_Config := ⟨false, "smtp.example.org", 25, "bot", "pw"⟩

/-- A configuration with `smtp_ssl` true and the user "bot". -/
def cfgSSLBot : AMGUT_Config := ⟨true, "smtp.example.org", 25, "bot", "pw"⟩

/-- A relay on which every step succeeds. -/
def relayOk : Relay := ⟨true, StarttlsOutcome.ok, true, true⟩

/-- A relay that answers STARTTLS with `smtplib.SMTPException`. -/
def relayStlsRejected : Relay := ⟨true, StarttlsOutcome.smtpExc, true, true⟩

/-- A relay whose STARTTLS step raises a non-SMTP exception. -/
def relayStlsSocketErr : Relay := ⟨true, StarttlsOutcome.otherExc, true, true⟩

/-- A relay that rejects the login credentials. -/
def relayBadLogin : Relay := ⟨true, StarttlsOutcome.ok, false, true⟩

/-- A relay that rejects the sendmail transmission. -/
def relayBadSendmail : Relay := ⟨true, StarttlsOutcome.ok, true, false⟩

/-- Claim C1: with `smtp_ssl` true the object returned by the implicit-TLS
constructor is discarded and never bound to the local variable `s`, so a
fresh call issues only the constructor, raises `UnboundLocalError` at the
`s.connect` step, and never performs connect, starttls, login, sendmail or
quit — the send cannot complete using the TLS client. -/
theorem C1_ssl_client_discarded (cfg : AMGUT_Config) (relay : Relay)
    (help_email message subject : String) (ra sa : Option String)
    (h : cfg.smtp_ssl = true) :
    send_email cfg relay help_email message subject ra sa =
      ([Event.construct_SMTP_SSL], some (PyError.unboundLocal "s")) := by
  simp [send_email, h]

/-- Witness for C1 at a concrete configuration. -/
theorem C1_ssl_client_discarded_witness :
    send_email cfgSSLBot relayOk "help@example.org" "body" "subj" none none =
      ([Event.construct_SMTP_SSL], some (PyError.unboundLocal "s")) :=
  C1_ssl_client_discarded cfgSSLBot relayOk "help@example.org" "body" "subj"
    none none rfl

/-- Claim C2: with `smtp_ssl` false, if the STARTTLS attempt raises a
protocol-level SMTP exception, `send_email` swallows it: the call behaves
exactly as if STARTTLS had succeeded, and in particular still proceeds to
the EHLO/HELO handshake (and thence to authentication and transmission). -/
theorem C2_starttls_exception_swallowed (cfg : AMGUT_Config) (relay : Relay)
    (help_email message subject : String) (ra sa : Option String)
    (hssl : cfg.smtp_ssl = false) (hc : relay.connect_ok = true)
    (hst : relay.starttls_outcome = StarttlsOutcome.smtpExc) :
    send_email cfg relay help_email message subject ra sa =
      send_email cfg { relay with starttls_outcome := StarttlsOutcome.ok }
        help_email message subject ra sa ∧
    Event.ehlo_or_helo_if_needed ∈
      (send_email cfg relay help_email message subject ra sa).1 := by
  constructor
  · simp [send_email, sendmail_and_quit, hssl, hc, hst]
  · by_cases hu : cfg.smtp_user = "" <;>
    by_cases hl : relay.login_ok = true <;>
    by_cases hm : relay.sendmail_ok = true <;>
    simp [send_email, sendmail_and_quit, hssl, hc, hst, hu, hl, hm]

/-- Witness for C2 at a concrete configuration and relay. -/
theorem C2_starttls_exception_swallowed_witness :
    send_email cfgBot relayStlsRejected "help@example.org" "body" "subj" none none =
      send_email cfgBot { relayStlsRejected with starttls_outcome := StarttlsOutcome.ok }
        "help@example.org" "body" "subj" none none ∧
    Event.ehlo_or_helo_if_needed ∈
      (send_email cfgBot relayStlsRejected "help@example.org" "body" "subj" none none).1 :=
  C2_starttls_exception_swallowed cfgBot relayStlsRejected "help@example.org"
    "body" "subj" none none rfl rfl rfl

/-- Claim C3 is false as stated: it quantifies over every call, but with
`smtp_ssl` true and a non-empty configured user, no login is ever issued
(the call raises `UnboundLocalError` before reaching authentication). -/
theorem C3_counterexample :
    ¬ ∀ (cfg : AMGUT_Config) (relay : Relay)
        (help_email message subject : String) (ra sa : Option String),
        cfg.smtp_user ≠ "" →
        loginCount (send_email cfg relay help_email message subject ra sa).1 = 1 := by
  intro h
  have h1 := h cfgSSLBot relayOk "help@example.org" "body" "subj" none none
    (by decide)
  exact absurd h1 (by decide)

/-- Claim C3 (amended): whenever `smtp_user` is empty, no login is ever
issued; and on every call that reaches the authentication step — `smtp_ssl`
false, the connection succeeds, and STARTTLS raises at most a protocol-level
SMTP exception — a non-empty `smtp_user` yields exactly one login, with the
configured `(smtp_user, smtp_password)`, and no sendmail occurs before it. -/
theorem C3_login_discipline (cfg : AMGUT_Config) (relay : Relay)
    (help_email message subject : String) (ra sa : Option String) :
    (cfg.smtp_user = "" →
      loginCount (send_email cfg relay help_email message subject ra sa).1 = 0) ∧
    (cfg.smtp_ssl = false → relay.connect_ok = true →
      relay.starttls_outcome ≠ StarttlsOutcome.otherExc → cfg.smtp_user ≠ "" →
      loginCount (send_email cfg relay help_email message subject ra sa).1 = 1 ∧
      Event.login cfg.smtp_user cfg.smtp_password ∈
        (send_email cfg relay help_email message subject ra sa).1 ∧
      sendmailOnlyAfterLogin
        (send_email cfg relay help_email message subject ra sa).1 = true) := by
  constructor
  · intro hu
    by_cases hssl : cfg.smtp_ssl <;>
    by_cases hc : relay.connect_ok = true <;>
    rcases hso : relay.starttls_outcome <;>
    by_cases hm : relay.sendmail_ok = true <;>
    simp [send_email, sendmail_and_quit, loginCount, sendmailOnlyAfterLogin,
      hu, hssl, hc, hso, hm]
  · intro hssl hc hst hu
    by_cases hl : relay.login_ok = true <;>
    rcases hso : relay.starttls_outcome <;>
    by_cases hm : relay.sendmail_ok = true <;>
    simp_all [send_email, sendmail_and_quit, loginCount, sendmailOnlyAfterLogin]

/-- Witness for C3 (amended): one login with "bot"/"pw" on a plain
authenticated call, zero logins on an anonymous call. -/
theorem C3_login_discipline_witness :
    loginCount (send_email cfgBot relayOk "help@example.org" "body" "subj"
      none none).1 = 1 ∧
    loginCount (send_email cfgAnon relayOk "help@example.org" "body" "subj"
      none none).1 = 0 :=
  ⟨((C3_login_discipline cfgBot relayOk "help@example.org" "body" "subj"
      none none).2 rfl rfl (by decide) (by decide)).1,
   (C3_login_discipline cfgAnon relayOk "help@example.org" "body" "subj"
      none none).1 rfl⟩

/-- Claim C4: for all inputs, the message constructed by `send_email`
(lines 16–22, `build_msg`) is a plaintext message whose body is `message`
and whose Subject, From and To headers are `subject`, `sender` and
`recipient` respectively. -/
theorem C4_message_headers (message subject sender recipient : String) :
    (build_msg message subject sender recipient).getHeader "Subject" = some subject ∧
    (build_msg message subject sender recipient).getHeader "From" = some sender ∧
    (build_msg message subject sender recipient).getHeader "To" = some recipient ∧
    (build_msg message subject sender recipient).body = message :=
  ⟨rfl, rfl, rfl, rfl⟩

/-- Claim C5: every `sendmail` event issued by `send_email` carries a
recipient list of length one whose single element is the (possibly
defaulted) recipient argument. -/
theorem C5_sendmail_single_recipient (cfg : AMGUT_Config) (relay : Relay)
    (help_email message subject : String) (ra sa : Option String)
    (from_addr : String) (to_addrs : List String) (payload : String)
    (h : Event.sendmail from_addr to_addrs payload ∈
         (send_email cfg relay help_email message subject ra sa).1) :
    to_addrs = [ra.getD "americangut@gmail.com"] ∧ to_addrs.length = 1 := by
  have key : to_addrs = [ra.getD "americangut@gmail.com"] := by
    by_cases hssl : cfg.smtp_ssl <;>
    by_cases hc : relay.connect_ok = true <;>
    rcases hso : relay.starttls_outcome <;>
    by_cases hu : cfg.smtp_user = "" <;>
    by_cases hl : relay.login_ok = true <;>
    by_cases hm : relay.sendmail_ok = true <;>
    simp [send_email, sendmail_and_quit, hssl, hc, hso, hu, hl, hm] at h <;>
    tauto
  exact ⟨key, by simp [key]⟩

/-- Witness for C5: the anonymous-relay success trace contains a sendmail
event, and its recipient list is the singleton default recipient. -/
theorem C5_sendmail_single_recipient_witness :
    (["americangut@gmail.com"] : List String) = ["americangut@gmail.com"] ∧
    (["americangut@gmail.com"] : List String).length = 1 :=
  C5_sendmail_single_recipient cfgAnon relayOk "help@example.org" "body" "subj"
    none none "help@example.org" ["americangut@gmail.com"]
    (build_msg "body" "subj" "help@example.org" "americangut@gmail.com").as_string
    (by simp [send_email, sendmail_and_quit, cfgAnon, relayOk])

/-- Claim C6 (Scenario A): with `smtp_ssl` false, an empty `smtp_user`, and
a relay that accepts the connection, STARTTLS and the transmission, the call
performs exactly one connect (to the configured host and port), one
STARTTLS, zero logins, one sendmail with a singleton recipient list, and
one quit, in that order. -/
theorem C6_scenario_A (cfg : AMGUT_Config) (relay : Relay)
    (help_email message subject : String) (ra sa : Option String)
    (hssl : cfg.smtp_ssl = false) (hu : cfg.smtp_user = "")
    (hc : relay.connect_ok = true)
    (hst : relay.starttls_outcome = StarttlsOutcome.ok)
    (hm : relay.sendmail_ok = true) :
    send_email cfg relay help_email message subject ra sa =
      ([Event.construct_SMTP,
        Event.connect cfg.smtp_host cfg.smtp_port,
        Event.starttls,
        Event.ehlo_or_helo_if_needed,
        Event.sendmail (sa.getD help_email) [ra.getD "americangut@gmail.com"]
          (build_msg message subject (sa.getD help_email)
            (ra.getD "americangut@gmail.com")).as_string,
        Event.quit], none) ∧
    loginCount (send_email cfg relay help_email message subject ra sa).1 = 0 := by
  have h1 : send_email cfg relay help_email message subject ra sa =
      ([Event.construct_SMTP,
        Event.connect cfg.smtp_host cfg.smtp_port,
        Event.starttls,
        Event.ehlo_or_helo_if_needed,
        Event.sendmail (sa.getD help_email) [ra.getD "americangut@gmail.com"]
          (build_msg message subject (sa.getD help_email)
            (ra.getD "americangut@gmail.com")).as_string,
        Event.quit], none) := by
    simp [send_email, sendmail_and_quit, hssl, hu, hc, hst, hm]
  exact ⟨h1, by simp [h1, loginCount]⟩

/-- Witness for C6 at a concrete configuration and relay. -/
theorem C6_scenario_A_witness :
    send_email cfgAnon relayOk "help@example.org" "body" "subj" none none =
      ([Event.construct_SMTP,
        Event.connect cfgAnon.smtp_host cfgAnon.smtp_port,
        Event.starttls,
        Event.ehlo_or_helo_if_needed,
        Event.sendmail "help@example.org" ["americangut@gmail.com"]
          (build_msg "body" "subj" "help@example.org"
            "americangut@gmail.com").as_string,
        Event.quit], none) ∧
    loginCount (send_email cfgAnon relayOk "help@example.org" "body" "subj"
      none none).1 = 0 :=
  C6_scenario_A cfgAnon relayOk "help@example.org" "body" "subj" none none
    rfl rfl rfl rfl rfl

/-- Claim C7: an omitted `recipient` defaults to the fixed project mailbox
'americangut@gmail.com', and an omitted `sender` defaults to the configured
help address `media_locale['HELP_EMAIL']`: a call omitting both arguments
is identical to a call passing those two values explicitly. -/
theorem C7_default_arguments (cfg : AMGUT_Config) (relay : Relay)
    (help_email message subject : String) :
    send_email cfg relay help_email message subject none none =
      send_email cfg relay help_email message subject
        (some "americangut@gmail.com") (some help_email) := rfl

/-- Claim C8: on an authenticated GET with identity `U1` whose data-access
lookup returns `R`, the handler invokes the render collaborator exactly once,
with the template name, `skid = U1` and `results = R`, `R` unmodified. -/
theorem C8_render_exactly_once {Identity ResultSet : Type}
    (get_barcode_results : Identity → ResultSet) (U1 : Identity) (R : ResultSet)
    (h : get_barcode_results U1 = R) :
    ResultsPortalHandler_get get_barcode_results U1 =
      [{ template := "results_portal.html", skid := U1, results := R }] ∧
    (ResultsPortalHandler_get get_barcode_results U1).length = 1 := by
  subst h
  exact ⟨rfl, rfl⟩

/-- Witness for C8 with a concrete identity type and lookup. -/
theorem C8_render_exactly_once_witness :
    ResultsPortalHandler_get (fun n : Nat => n + 1) 5 =
      [{ template := "results_portal.html", skid := 5, results := 6 }] ∧
    (ResultsPortalHandler_get (fun n : Nat => n + 1) 5).length = 1 :=
  C8_render_exactly_once (fun n : Nat => n + 1) 5 6 rfl

/-- Claim C9: `quit` is performed only on the success path — in every
execution where the connection was opened and a later step (authentication
or transmission) raises, `quit` is never issued, so the connection is left
open rather than explicitly closed. -/
theorem C9_no_quit_on_failure (cfg : AMGUT_Config) (relay : Relay)
    (help_email message subject : String) (ra sa : Option String)
    (h : (send_email cfg relay help_email message subject ra sa).2 =
           some PyError.loginError ∨
         (send_email cfg relay help_email message subject ra sa).2 =
           some PyError.sendmailError) :
    Event.connect cfg.smtp_host cfg.smtp_port ∈
      (send_email cfg relay help_email message subject ra sa).1 ∧
    Event.quit ∉ (send_email cfg relay help_email message subject ra sa).1 := by
  by_cases hssl : cfg.smtp_ssl <;>
  by_cases hc : relay.connect_ok = true <;>
  rcases hso : relay.starttls_outcome <;>
  by_cases hu : cfg.smtp_user = "" <;>
  by_cases hl : relay.login_ok = true <;>
  by_cases hm : relay.sendmail_ok = true <;>
  simp_all [send_email, sendmail_and_quit]

/-- Witness for C9: a failed login leaves the connection without a quit. -/
theorem C9_no_quit_on_failure_witness :
    Event.connect cfgBot.smtp_host cfgBot.smtp_port ∈
      (send_email cfgBot relayBadLogin "help@example.org" "body" "subj"
        none none).1 ∧
    Event.quit ∉ (send_email cfgBot relayBadLogin "help@example.org" "body"
        "subj" none none).1 :=
  C9_no_quit_on_failure cfgBot relayBadLogin "help@example.org" "body" "subj"
    none none (Or.inl rfl)

/-- Claim C10: the STARTTLS handler swallows only SMTP protocol exceptions —
when the STARTTLS step raises an exception of any other type, that exception
propagates out of `send_email` and the call stops there (no EHLO, no login,
no sendmail, no quit). -/
theorem C10_non_smtp_exception_propagates (cfg : AMGUT_Config) (relay : Relay)
    (help_email message subject : String) (ra sa : Option String)
    (hssl : cfg.smtp_ssl = false) (hc : relay.connect_ok = true)
    (hst : relay.starttls_outcome = StarttlsOutcome.otherExc) :
    send_email cfg relay help_email message subject ra sa =
      ([Event.construct_SMTP, Event.connect cfg.smtp_host cfg.smtp_port,
        Event.starttls], some PyError.otherException) := by
  simp [send_email, hssl, hc, hst]

/-- Witness for C10 at a concrete configuration and relay. -/
theorem C10_non_smtp_exception_propagates_witness :
    send_email cfgBot relayStlsSocketErr "help@example.org" "body" "subj"
        none none =
      ([Event.construct_SMTP, Event.connect cfgBot.smtp_host cfgBot.smtp_port,
        Event.starttls], some PyError.otherException) :=
  C10_non_smtp_exception_propagates cfgBot relayStlsSocketErr "help@example.org"
    "body" "subj" none none rfl rfl rfl
